import Mathlib

/-!
Verification of the memoir chunk store, streaming aggregator, compaction
engine and its two read-oriented tool surfaces (history search and chunk
expansion), shallowly embedded from the TypeScript sources.

Conventions of the embedding:
* JavaScript strings become `String`, numbers become `Nat` (all quantities
  involved are non-negative integers), optional / possibly-`undefined`
  fields become `Option`.
* `Array.prototype.join(sep)` is embedded as `joinWith sep`.
* `Math.ceil(n / 4)` on a natural `n` is `(n + 4 - 1) / 4` with `Nat`
  division, which equals the mathematical ceiling.
* The chunk-store service itself (`chunks/index.ts`) is not part of the
  sources at hand; its operations (`getActiveChunks`, `compact`,
  `finalize`, `expand`, `search` and the message tracker) are modelled
  from the specification, as indicated in their doc comments.  Everything
  else is translated from the TypeScript source files.
-/

namespace Memoir

/-- Embedding of `Array.prototype.join(sep)` for JavaScript string arrays. -/
def joinWith (sep : String) : List String → String
  | [] => ""
  | [x] => x
  | x :: y :: xs => x ++ sep ++ joinWith sep (y :: xs)

-- ===========================================================================
-- Data model (`types.ts`, as used by the sources and described in §3)
-- ===========================================================================

/-- Role of a chunk message: `'user' | 'assistant'`. -/
inductive Role where
  | user
  | assistant
deriving DecidableEq, Repr

/-- Rendering of a role as the string the TypeScript code stores. -/
def Role.str : Role → String
  | .user => "user"
  | .assistant => "assistant"

/-- Tagged variant `ChunkMessagePart`: `text{text}`, `reasoning{text}`,
`tool{tool, input?, output?}`, `file{text}`.  Fields are optional exactly as
the consuming TypeScript treats them (e.g. `part.text || ''`).  A tool
`input` is carried as its serialized JSON string. -/
inductive ChunkMessagePart where
  | text (text : Option String)
  | reasoning (text : Option String)
  | tool (tool : Option String) (input : Option String) (output : Option String)
  | file (text : Option String)
deriving DecidableEq, Repr

/-- One `ChunkMessage`: id, role, ordered parts, timestamp (seconds). -/
structure ChunkMessage where
  id : String
  role : Role
  parts : List ChunkMessagePart
  timestamp : Nat
deriving DecidableEq, Repr

/-- Metadata record of a chunk's content: optional `tools_used`,
`files_modified` and `outcome`. -/
structure ChunkMetadata where
  tools_used : Option (List String) := none
  files_modified : Option (List String) := none
  outcome : Option String := none
deriving DecidableEq, Repr

/-- A chunk's content: ordered messages plus the metadata record. -/
structure ChunkContent where
  messages : List ChunkMessage
  metadata : ChunkMetadata
deriving DecidableEq, Repr

/-- Chunk lifecycle status: `'active' | 'compacted'`. -/
inductive ChunkStatus where
  | active
  | compacted
deriving DecidableEq, Repr

/-- Rendering of a status as the string interpolated by the tools. -/
def ChunkStatus.str : ChunkStatus → String
  | .active => "active"
  | .compacted => "compacted"

/-- The persisted `Chunk` record of §3. -/
structure Chunk where
  id : String
  sessionId : String
  content : ChunkContent
  summary : Option String := none
  status : ChunkStatus
  depth : Nat
  childRefs : List String := []
  createdAt : Nat
deriving DecidableEq, Repr

instance : BEq Role := ⟨fun a b => decide (a = b)⟩
instance : BEq ChunkStatus := ⟨fun a b => decide (a = b)⟩

theorem ChunkStatus.beq_iff (a b : ChunkStatus) : (a == b) = true ↔ a = b := by
  simp [BEq.beq]

-- ===========================================================================
-- The chunk store, modelled from the specification (§4.2, §4.3, §4.5)
-- ===========================================================================

/-- Modelled from the spec: the persisted chunk store is the ordered list of
all chunks ever created (creation order; chunks are only appended, and
mutated only to flip `status`). -/
abbrev ChunkStore := List Chunk

/-- Modelled from the spec (§4.2): `getActiveChunks(sessionId)` — all chunks
for the session with `status=active`, independent of depth, in creation
order. -/
def getActiveChunks (store : ChunkStore) (sessionId : String) : List Chunk :=
  store.filter (fun c => c.sessionId == sessionId && c.status == ChunkStatus.active)

/-- Modelled from the spec: chunk lookup by id in the store. -/
def findChunk (store : ChunkStore) (chunkId : String) : Option Chunk :=
  store.find? (fun c => c.id == chunkId)

/-- Largest depth among a list of chunks (0 on the empty list), as used by
the compaction rule `depth = 1 + max(child depths)`. -/
def maxDepth (chunks : List Chunk) : Nat :=
  chunks.foldl (fun m c => Nat.max m c.depth) 0

/-- Status flip applied to a session's active chunks by compaction. -/
def flipActive (sessionId : String) (c : Chunk) : Chunk :=
  if c.sessionId == sessionId && c.status == ChunkStatus.active then
    { c with status := ChunkStatus.compacted }
  else c

/-- Result record `{summaryChunk, compactedChunks}` returned by `compact`. -/
structure CompactResult where
  summaryChunk : Chunk
  compactedChunks : List Chunk
deriving DecidableEq, Repr

/-- Modelled from the spec (§4.3): `compact(sessionId, summary)`.  Reads the
session's active chunks; when there are at most one it does nothing and
returns null (`none`).  Otherwise it creates one new active chunk with
`depth = 1 + max(depth of activeChunks)`, `childRefs` the ids of the active
chunks in order, the chosen summary, empty content and a fresh id and
timestamp; atomically flips every prior active chunk of the session to
`compacted`; and returns the summary chunk together with the now-compacted
children and the updated store. -/
def compact (store : ChunkStore) (sessionId : String) (summary : String)
    (newId : String) (now : Nat) : Option (CompactResult × ChunkStore) :=
  let actives := getActiveChunks store sessionId
  if actives.length ≤ 1 then none
  else
    let summaryChunk : Chunk :=
      { id := newId
        sessionId := sessionId
        content := { messages := [], metadata := {} }
        summary := some summary
        status := ChunkStatus.active
        depth := 1 + maxDepth actives
        childRefs := actives.map Chunk.id
        createdAt := now }
    let newStore : ChunkStore := store.map (flipActive sessionId) ++ [summaryChunk]
    some ({ summaryChunk := summaryChunk
            compactedChunks := actives.map (fun c => { c with status := ChunkStatus.compacted }) },
          newStore)

/-- Modelled from the spec (§4.5): `expand(chunkId, includeChildren?)`.
Unknown id gives the empty list; otherwise the resolved chunk alone, or —
with `includeChildren` — the chunk followed by its direct children in
`childRefs` order (one level only). -/
def expand (store : ChunkStore) (chunkId : String) (includeChildren : Bool) : List Chunk :=
  match findChunk store chunkId with
  | none => []
  | some c =>
    if includeChildren then c :: c.childRefs.filterMap (findChunk store)
    else [c]

-- ===========================================================================
-- Streaming aggregator (message tracker), modelled from the spec (§4.1, §3)
-- ===========================================================================

/-- Draft message of the aggregator: a role together with the
insertion-ordered mapping from part id to part (§3, "Draft Message"). -/
structure DraftMessage where
  role : Role
  parts : List (String × ChunkMessagePart)
deriving DecidableEq, Repr

/-- Modelled from the spec: the tracker's state, per session an
insertion-ordered mapping from message id to draft message. -/
abbrev Tracker := List (String × List (String × DraftMessage))

/-- Modelled from the spec: the draft messages currently tracked for a
session (empty when the session is unknown). -/
def sessionDrafts (tr : Tracker) (sessionId : String) : List (String × DraftMessage) :=
  (tr.lookup sessionId).getD []

/-- Modelled from the spec (§4.1): `hasMessages(sessionId)`. -/
def hasMessages (tr : Tracker) (sessionId : String) : Bool :=
  !(sessionDrafts tr sessionId).isEmpty

/-- Modelled from the spec (§4.1): `clearSession(sessionId)` discards all
drafts for a session. -/
def clearSession (tr : Tracker) (sessionId : String) : Tracker :=
  tr.filter (fun e => !(e.1 == sessionId))

/-- Conversion of one draft into the finalized `ChunkMessage`, parts in
part-arrival order (§3). -/
def draftToMessage (now : Nat) (entry : String × DraftMessage) : ChunkMessage :=
  { id := entry.1
    role := entry.2.role
    parts := entry.2.parts.map Prod.snd
    timestamp := now }

/-- First-occurrence-preserving insertion, the embedding of adding to a
JavaScript `Set` that is later enumerated with `Array.from`. -/
def insertUniq (l : List String) (x : String) : List String :=
  if l.contains x then l else l ++ [x]

/-- Tool names appearing in tool parts of the given messages, deduplicated
in first-occurrence order (used to derive `tools_used` at finalize). -/
def collectToolNames (messages : List ChunkMessage) : List String :=
  messages.foldl
    (fun acc m =>
      m.parts.foldl
        (fun acc p =>
          match p with
          | ChunkMessagePart.tool (some t) _ _ => insertUniq acc t
          | _ => acc)
        acc)
    []

/-- Combined aggregator + store state acted on by finalize. -/
structure MemoirState where
  tracker : Tracker
  store : ChunkStore

/-- Modelled from the spec (§4.2): `finalize(sessionId)`.  With no draft
messages for the session this is a no-op.  Otherwise it snapshots the
drafts into a chunk content (messages in arrival order, parts in
part-arrival order), derives `tools_used` from the tool parts, creates a
new chunk with `status=active`, `depth=0`, a fresh id and timestamp,
appends it to the store and clears the session's drafts.  (The spec's
file-path extraction from tool inputs is not reproduced here because tool
inputs are carried as opaque serialized strings in this embedding; no
claim below depends on `files_modified` of a finalized chunk.) -/
def finalize (st : MemoirState) (sessionId : String) (newId : String) (now : Nat) :
    MemoirState :=
  let drafts := sessionDrafts st.tracker sessionId
  if drafts.isEmpty then st
  else
    let messages := drafts.map (draftToMessage now)
    let chunk : Chunk :=
      { id := newId
        sessionId := sessionId
        content :=
          { messages := messages
            metadata := { tools_used := some (collectToolNames messages) } }
        summary := none
        status := ChunkStatus.active
        depth := 0
        childRefs := []
        createdAt := now }
    { tracker := clearSession st.tracker sessionId
      store := st.store ++ [chunk] }

-- ===========================================================================
-- Event feed types and the part filter (`events.ts`, in source)
-- ===========================================================================

/-- Tool execution status from OpenCode events:
`'pending' | 'running' | 'completed' | 'error'`. -/
inductive ToolStatus where
  | pending
  | running
  | completed
  | error
deriving DecidableEq, Repr

instance : BEq ToolStatus := ⟨fun a b => decide (a = b)⟩

/-- Tool state carried by a tool part of a `message.part.updated` event. -/
structure ToolState where
  status : ToolStatus
  input : Option String := none
  output : Option String := none
  errorMsg : Option String := none
  title : Option String := none
deriving DecidableEq, Repr

/-- A message part as delivered by a `message.part.updated` event. -/
structure EventMessagePart where
  id : String
  sessionID : String
  messageID : String
  type : String
  text : Option String := none
  tool : Option String := none
  callID : Option String := none
  state : Option ToolState := none
deriving DecidableEq, Repr

/-- Embedding of `String.prototype.trim`: drop leading and trailing
whitespace (stated over the character list so that it is computable by the
kernel). -/
def strTrim (s : String) : String :=
  String.mk
    (((s.data.dropWhile Char.isWhitespace).reverse.dropWhile Char.isWhitespace).reverse)

/-- Embedding of `!part.text || part.text.trim() === ''`. -/
def isBlankText (t : Option String) : Bool :=
  match t with
  | none => true
  | some s => strTrim s == ""

/-- Embedding of `part.state?.status === 'completed'`. -/
def toolCompleted (st : Option ToolState) : Bool :=
  match st with
  | some s => s.status == ToolStatus.completed
  | none => false

/-- Embedding of `handleMessagePartUpdated` (events hook, source): the value
is the chunk message part handed to `tracker.addPart`, or `none` when the
event part is discarded.  Control flow follows the source: unhandled part
types are skipped, then blank text parts, then tool parts whose state is
not `completed`; surviving parts are converted and tracked. -/
def handleMessagePartUpdated (p : EventMessagePart) : Option ChunkMessagePart :=
  if !(p.type == "text") && !(p.type == "tool") then none
  else if p.type == "text" && isBlankText p.text then none
  else if p.type == "tool" && !toolCompleted p.state then none
  else if p.type == "text" then
    some (ChunkMessagePart.text p.text)
  else if p.type == "tool" then
    some (ChunkMessagePart.tool p.tool
      (p.state.bind (fun s => s.input))
      (p.state.bind (fun s => s.output)))
  else none

-- ===========================================================================
-- Compaction summary selection (`events.ts`, in source)
-- ===========================================================================

/-- Distinct tool names over the chunks being compacted, embedding the
`allTools` set of `generateCompactionSummary`. -/
def allToolsOf (chunks : List Chunk) : List String :=
  chunks.foldl (fun acc c => (c.content.metadata.tools_used.getD []).foldl insertUniq acc) []

/-- Distinct modified files over the chunks being compacted, embedding the
`allFiles` set of `generateCompactionSummary`. -/
def allFilesOf (chunks : List Chunk) : List String :=
  chunks.foldl (fun acc c => (c.content.metadata.files_modified.getD []).foldl insertUniq acc) []

/-- Total message count over the chunks being compacted. -/
def totalMessagesOf (chunks : List Chunk) : Nat :=
  chunks.foldl (fun n c => n + c.content.messages.length) 0

/-- Embedding of `generateCompactionSummary` (events hook, source):
aggregates message counts, tool names and modified files over the chunks
and renders `parts.join('; ')`, with the tools and files segments pushed
only when their sets are non-empty and the file list capped at 3 entries
with a `+K more` suffix. -/
def generateCompactionSummary (chunks : List Chunk) : String :=
  let allTools := allToolsOf chunks
  let allFiles := allFilesOf chunks
  let totalMessages := totalMessagesOf chunks
  let n := chunks.length
  let parts : List String := [s!"{totalMessages} messages across {n} chunks"]
  let parts :=
    if allTools.length > 0 then
      let ts := joinWith ", " allTools
      parts ++ [s!"tools: {ts}"]
    else parts
  let parts :=
    if allFiles.length > 0 then
      let fileList :=
        if allFiles.length ≤ 3 then joinWith ", " allFiles
        else
          let first3 := joinWith ", " (allFiles.take 3)
          let k := allFiles.length - 3
          s!"{first3} +{k} more"
      parts ++ [s!"files: {fileList}"]
    else parts
  joinWith "; " parts

/-- Embedding of the summary choice in `handleSessionCompacted` (source):
`openCodeSummary || generateCompactionSummary(activeChunks)` — the
host-extracted narrative summary when present and non-empty (`||` is on
JavaScript truthiness), otherwise the generated metadata summary. -/
def chooseCompactionSummary (hostSummary : Option String) (activeChunks : List Chunk) : String :=
  match hostSummary with
  | some s => if s.isEmpty then generateCompactionSummary activeChunks else s
  | none => generateCompactionSummary activeChunks

/-- Specification wording of the generated summary, for comparison with the
embedded `generateCompactionSummary`: the exact form
`'<total messages> messages across <n> chunks; tools: ...; files: ...'`
where the tools segment and the files segment are present only when
non-empty, at most 3 files are enumerated, and a `'+K more'` suffix is
appended when more than 3 distinct files exist. -/
def generatedSummarySpec (chunks : List Chunk) : String :=
  let tools := allToolsOf chunks
  let files := allFilesOf chunks
  let totalMessages := totalMessagesOf chunks
  let n := chunks.length
  let base := s!"{totalMessages} messages across {n} chunks"
  let toolsSeg :=
    if tools.isEmpty then ""
    else
      let ts := joinWith ", " tools
      s!"; tools: {ts}"
  let filesSeg :=
    if files.isEmpty then ""
    else
      let enumerated := joinWith ", " (files.take 3)
      let suffix :=
        if 3 < files.length then
          let k := files.length - 3
          s!" +{k} more"
        else ""
      s!"; files: {enumerated}{suffix}"
  base ++ toolsSeg ++ filesSeg

-- ===========================================================================
-- Expand tool surface (`expand.ts`, in source)
-- ===========================================================================

/-- Constant `CHARS_PER_TOKEN` shared by both tools. -/
def CHARS_PER_TOKEN : Nat := 4

/-- Constant `LARGE_RESPONSE_TOKEN_THRESHOLD` of the expand tool. -/
def LARGE_RESPONSE_TOKEN_THRESHOLD : Nat := 4000

/-- Embedding of `estimateTokens`: `Math.ceil(text.length / CHARS_PER_TOKEN)`. -/
def estimateTokens (text : String) : Nat :=
  (text.length + CHARS_PER_TOKEN - 1) / CHARS_PER_TOKEN

/-- Embedding of `formatMessagePart` (expand tool, source), rendering one
part for display; empty-rendering parts are dropped by the caller. -/
def formatMessagePart (part : ChunkMessagePart) : String :=
  match part with
  | ChunkMessagePart.text t => t.getD ""
  | ChunkMessagePart.reasoning t =>
    match t with
    | some s => if s.isEmpty then "" else s!"[Reasoning: {s}]"
    | none => ""
  | ChunkMessagePart.tool tool input output =>
    match tool with
    | none => ""
    | some toolName =>
      if toolName.isEmpty then ""
      else
        let lines : List String := [s!"**Tool: {toolName}**"]
        let lines :=
          match input with
          | some inputStr =>
            -- `part.input` is an object in the source; presence is truthiness
            let truncatedInput :=
              if inputStr.length > 500 then inputStr.take 500 ++ "\n... (truncated)"
              else inputStr
            lines ++ ["Input:\n```json\n" ++ truncatedInput ++ "\n```"]
          | none => lines
        let lines :=
          match output with
          | some out =>
            if out.isEmpty then lines
            else
              let truncatedOutput :=
                if out.length > 2000 then out.take 2000 ++ "\n... (truncated)"
                else out
              lines ++ ["Output:\n```\n" ++ truncatedOutput ++ "\n```"]
          | none => lines
        joinWith "\n" lines
  | ChunkMessagePart.file t =>
    match t with
    | some s => if s.isEmpty then "" else s!"[File: {s}]"
    | none => ""

/-- Embedding of `formatChunkContent` (expand tool, source).  The rendering
of `new Date(x * 1000).toISOString()` is a parameter `iso`; every theorem
below holds for an arbitrary renderer, in particular the real one. -/
def formatChunkContent (iso : Nat → String) (chunk : Chunk) : String :=
  let cid := chunk.id
  let sid := chunk.sessionId
  let st := chunk.status.str
  let d := chunk.depth
  let lines : List String := [s!"## Chunk {cid}", s!"Session: {sid}", s!"Status: {st}, Depth: {d}"]
  let lines :=
    match chunk.summary with
    | some s => if s.isEmpty then lines else lines ++ ["\n### Summary\n" ++ s]
    | none => lines
  let messageCount := chunk.content.messages.length
  let lines := lines ++ [s!"\n### Messages ({messageCount})"]
  let lines :=
    chunk.content.messages.foldl
      (fun lines msg =>
        let ts := iso msg.timestamp
        let role := msg.role.str
        let lines := lines ++ [s!"\n**{role}** ({ts}):"]
        msg.parts.foldl
          (fun lines part =>
            let formatted := formatMessagePart part
            if formatted.isEmpty then lines else lines ++ [formatted])
          lines)
      lines
  let lines :=
    match chunk.content.metadata.files_modified with
    | some files =>
      if files.length > 0 then lines ++ ["\n### Files Modified\n" ++ joinWith "\n" files]
      else lines
    | none => lines
  let lines :=
    match chunk.content.metadata.tools_used with
    | some tools =>
      if tools.length > 0 then lines ++ ["\n### Tools Used\n" ++ joinWith ", " tools]
      else lines
    | none => lines
  joinWith "\n" lines

/-- Warning text attached by the expand tool to large full expansions. -/
def largeResponseWarning (estimatedTokens : Nat) : String :=
  s!"Large response (~{estimatedTokens} tokens). For future explorations of this size, consider delegating to a subagent to preserve context."

/-- Response of the expand tool: either the structured not-found result
(`success:false` with the error message) or the full-expansion payload
(`success:true` with chunk count, token estimate, content and optional
warning). -/
inductive ExpandResponse where
  | failure (error : String)
  | ok (chunk_count : Nat) (estimated_tokens : Nat) (content : String) (warning : Option String)
deriving DecidableEq, Repr

/-- Embedding of `expandTool.execute` (source) with `preview_only` falsy
(the preview branch is not needed by any claim): resolves the chunk via the
store's `expand`, reports not-found when the list is empty, otherwise joins
the formatted chunks with `'\n\n---\n\n'`, estimates tokens, and attaches
the warning when the estimate exceeds `LARGE_RESPONSE_TOKEN_THRESHOLD`. -/
def expandExecute (iso : Nat → String) (store : ChunkStore) (chunkId : String)
    (includeChildren : Bool) : ExpandResponse :=
  let chunks := expand store chunkId includeChildren
  if chunks.length == 0 then
    ExpandResponse.failure s!"Chunk {chunkId} not found"
  else
    let formatted := joinWith "\n\n---\n\n" (chunks.map (formatChunkContent iso))
    let estimatedTokens := estimateTokens formatted
    let warning :=
      if estimatedTokens > LARGE_RESPONSE_TOKEN_THRESHOLD then
        some (largeResponseWarning estimatedTokens)
      else none
    ExpandResponse.ok chunks.length estimatedTokens formatted warning

-- ===========================================================================
-- History tool surface (`history.ts`, in source)
-- ===========================================================================

/-- Constant `LARGE_RESULT_TOKEN_THRESHOLD` of the history tool. -/
def LARGE_RESULT_TOKEN_THRESHOLD : Nat := 2000

/-- Arguments of the history tool (all optional). -/
structure HistoryArgs where
  query : Option String := none
  allSessions : Option Bool := none
  session_ids : Option (List String) := none
  depth : Option Nat := none
  limit : Option Nat := none

/-- Embedding of the session-scope selection at the top of
`historyTool.execute` (source): with a non-empty `session_ids` list the
searched session is `session_ids[0]` while the reported scope string joins
every supplied id; with `all_sessions` truthy all sessions are searched;
otherwise the context session.  Returns `(sessionId, searchScope)`. -/
def selectScope (args : HistoryArgs) (contextSessionID : String) : Option String × String :=
  match args.session_ids with
  | some ids =>
    if ids.length > 0 then
      (ids.head?, "sessions: " ++ joinWith ", " ids)
    else if args.allSessions.getD false then (none, "all sessions")
    else (some contextSessionID, "current session")
  | none =>
    if args.allSessions.getD false then (none, "all sessions")
    else (some contextSessionID, "current session")

/-- Substring test used by the lexical-match model. -/
def containsStr (hay needle : String) : Bool :=
  decide (needle.toList <:+: hay.toList)

/-- Modelled from the spec (§4.4): lexical matching over a chunk's summary
and its message text content (tool input/output excluded). -/
def matchesQuery (query : String) (c : Chunk) : Bool :=
  containsStr (c.summary.getD "") query ||
    c.content.messages.any (fun m =>
      m.parts.any (fun p =>
        match p with
        | ChunkMessagePart.text t => containsStr (t.getD "") query
        | _ => false))

/-- Session filter of the search: a present `sessionId` restricts to that
one session, an absent one searches all sessions. -/
def sessionMatches (sessionId : Option String) (c : Chunk) : Bool :=
  match sessionId with
  | some s => c.sessionId == s
  | none => true

/-- Minimum-depth filter of the search (`0` = everything). -/
def depthMatches (minDepth : Option Nat) (c : Chunk) : Bool :=
  match minDepth with
  | some d => decide (d ≤ c.depth)
  | none => true

/-- One search result `{chunk, rank}`. -/
structure SearchResult where
  chunk : Chunk
  rank : Int
deriving DecidableEq, Repr

/-- Modelled from the spec (§4.4): `search(query, {sessionId?, depth?,
limit?})` filters the store by session, minimum depth and lexical match and
caps the result count at `limit`; each hit carries a relevance rank (the
ordering key is left as the store's relevance order). -/
def search (store : ChunkStore) (query : String) (sessionId : Option String)
    (minDepth : Option Nat) (limit : Nat) : List SearchResult :=
  ((store.filter (fun c =>
      sessionMatches sessionId c && depthMatches minDepth c && matchesQuery query c)).map
    (fun c => { chunk := c, rank := 0 })).take limit

/-- Embedding of the per-result `estimatedExpandedTokens` accumulation of
`historyTool.execute` (source): per result
`Math.ceil(max(summaryLength * 20, 2000) / CHARS_PER_TOKEN)`, summed. -/
def estimatedExpandedTokensOf (results : List SearchResult) : Nat :=
  results.foldl
    (fun sum r =>
      let summaryLength := (r.chunk.summary.getD "").length
      let estimatedFullLength := Nat.max (summaryLength * 20) 2000
      sum + (estimatedFullLength + CHARS_PER_TOKEN - 1) / CHARS_PER_TOKEN)
    0

/-- Warning text attached by the history tool to large potential
expansions. -/
def largeExpansionWarning (count : Nat) (estimatedExpandedTokens : Nat) : String :=
  s!"Expanding all {count} results would use ~{estimatedExpandedTokens} tokens. Consider using memoir_expand with preview_only=true first, or delegate detailed analysis to a subagent."

/-- Search-mode response of the history tool (the fields the claims are
about; the formatted chunk list is carried as the raw results). -/
structure HistoryResponse where
  success : Bool
  count : Nat
  scope : String
  results : List SearchResult
  estimated_expanded_tokens : Nat
  warning : Option String
deriving DecidableEq, Repr

/-- Embedding of the non-empty-result tail of `historyTool.execute`
(source): builds the response envelope and attaches the warning exactly
when `estimatedExpandedTokens > LARGE_RESULT_TOKEN_THRESHOLD &&
results.length > 3`. -/
def buildSearchResponse (results : List SearchResult) (scope : String) : HistoryResponse :=
  let estimatedExpandedTokens := estimatedExpandedTokensOf results
  let warning :=
    if estimatedExpandedTokens > LARGE_RESULT_TOKEN_THRESHOLD && results.length > 3 then
      some (largeExpansionWarning results.length estimatedExpandedTokens)
    else none
  { success := true
    count := results.length
    scope := scope
    results := results
    estimated_expanded_tokens := estimatedExpandedTokens
    warning := warning }

/-- Embedding of the search path of `historyTool.execute` (source): scope
selection, the store search with `limit ?? 10`, and the response envelope
(the empty-result early return is reported as a response with no
warning). -/
def historyExecute (store : ChunkStore) (args : HistoryArgs) (contextSessionID : String)
    (query : String) : HistoryResponse :=
  let scopeSel := selectScope args contextSessionID
  let limit := args.limit.getD 10
  let results := search store query scopeSel.1 args.depth limit
  if results.length == 0 then
    { success := true
      count := 0
      scope := scopeSel.2
      results := []
      estimated_expanded_tokens := 0
      warning := none }
  else buildSearchResponse results scopeSel.2

-- ===========================================================================
-- Helper lemmas
-- ===========================================================================

instance : LawfulBEq ChunkStatus where
  eq_of_beq h := by simpa [BEq.beq] using h
  rfl := by simp [BEq.beq]

instance : LawfulBEq ToolStatus where
  eq_of_beq h := by simpa [BEq.beq] using h
  rfl := by simp [BEq.beq]

theorem flipActive_pred (sessionId : String) (c : Chunk) :
    ((flipActive sessionId c).sessionId == sessionId &&
      (flipActive sessionId c).status == ChunkStatus.active) = false := by
  unfold flipActive
  by_cases h : (c.sessionId == sessionId && c.status == ChunkStatus.active) = true
  · rw [if_pos h]
    simp [beq_iff_eq]
  · rw [if_neg h]
    simpa using h

/-- Flipping a session's active chunks leaves it with no active chunk. -/
theorem getActiveChunks_map_flip (store : ChunkStore) (sessionId : String) :
    getActiveChunks (store.map (flipActive sessionId)) sessionId = [] := by
  unfold getActiveChunks
  rw [List.filter_map]
  have : List.filter
      ((fun c => c.sessionId == sessionId && c.status == ChunkStatus.active) ∘
        flipActive sessionId) store = [] := by
    rw [List.filter_eq_nil_iff]
    intro c _
    simp [Function.comp, flipActive_pred]
  rw [this, List.map_nil]

theorem length_filterMap_of_isSome {α β : Type} (f : α → Option β) (l : List α)
    (h : ∀ a ∈ l, (f a).isSome = true) : (l.filterMap f).length = l.length := by
  induction l with
  | nil => rfl
  | cons a l ih =>
    have ha := h a (List.mem_cons_self a l)
    cases hf : f a with
    | none => rw [hf] at ha; simp at ha
    | some b =>
      simp only [List.filterMap_cons, hf, List.length_cons]
      rw [ih (fun x hx => h x (List.mem_cons_of_mem a hx))]

-- ===========================================================================
-- C1 — compaction creates one summary chunk and flips the children
-- ===========================================================================

/-- C1: for every session, `compact` is a no-op (returning null) when the
session has at most one active chunk; otherwise it creates exactly one new
chunk (the store grows by exactly one) with status `active` whose depth
equals `1 + the maximum depth of the prior active chunks`, and flips every
one of those prior active chunks to status `compacted` — afterwards the new
summary chunk is the session's only active chunk, and every returned
compacted child carries status `compacted`. -/
theorem compact_spec (store : ChunkStore) (sessionId summary newId : String) (now : Nat) :
    ((getActiveChunks store sessionId).length ≤ 1 →
      compact store sessionId summary newId now = none) ∧
    (1 < (getActiveChunks store sessionId).length →
      ∃ res newStore, compact store sessionId summary newId now = some (res, newStore) ∧
        newStore.length = store.length + 1 ∧
        res.summaryChunk.status = ChunkStatus.active ∧
        res.summaryChunk.depth = 1 + maxDepth (getActiveChunks store sessionId) ∧
        res.summaryChunk.childRefs = (getActiveChunks store sessionId).map Chunk.id ∧
        getActiveChunks newStore sessionId = [res.summaryChunk] ∧
        res.compactedChunks.length = (getActiveChunks store sessionId).length ∧
        (∀ c ∈ res.compactedChunks, c.status = ChunkStatus.compacted)) := by
  constructor
  · intro h
    unfold compact
    simp only [h, if_pos]
  · intro h
    have hn : ¬((getActiveChunks store sessionId).length ≤ 1) := by omega
    simp only [compact]
    rw [if_neg hn]
    refine ⟨_, _, rfl, ?_, rfl, rfl, rfl, ?_, ?_, ?_⟩
    · simp
    · unfold getActiveChunks
      rw [List.filter_append]
      have h1 := getActiveChunks_map_flip store sessionId
      unfold getActiveChunks at h1
      rw [h1]
      simp [beq_iff_eq]
    · simp
    · intro c hc
      simp only [List.mem_map] at hc
      obtain ⟨c', _, rfl⟩ := hc
      rfl

/-- Witness for C1 at a concrete two-chunk store (both hypotheses of the
conjunction are implications; this discharges the interesting one). -/
theorem compact_spec_witness :
    ∃ res newStore,
      compact
        [{ id := "a", sessionId := "s",
           content := { messages := [], metadata := {} },
           status := ChunkStatus.active, depth := 0, createdAt := 1 },
         { id := "b", sessionId := "s",
           content := { messages := [], metadata := {} },
           status := ChunkStatus.active, depth := 2, createdAt := 2 }]
        "s" "SUM" "new" 9 = some (res, newStore) ∧
      newStore.length =
        ([{ id := "a", sessionId := "s",
            content := { messages := [], metadata := {} },
            status := ChunkStatus.active, depth := 0, createdAt := 1 },
          { id := "b", sessionId := "s",
            content := { messages := [], metadata := {} },
            status := ChunkStatus.active, depth := 2, createdAt := 2 }] : ChunkStore).length + 1 ∧
      res.summaryChunk.status = ChunkStatus.active ∧
      res.summaryChunk.depth = 1 + maxDepth (getActiveChunks
        [{ id := "a", sessionId := "s",
           content := { messages := [], metadata := {} },
           status := ChunkStatus.active, depth := 0, createdAt := 1 },
         { id := "b", sessionId := "s",
           content := { messages := [], metadata := {} },
           status := ChunkStatus.active, depth := 2, createdAt := 2 }] "s") ∧
      res.summaryChunk.childRefs = (getActiveChunks
        [{ id := "a", sessionId := "s",
           content := { messages := [], metadata := {} },
           status := ChunkStatus.active, depth := 0, createdAt := 1 },
         { id := "b", sessionId := "s",
           content := { messages := [], metadata := {} },
           status := ChunkStatus.active, depth := 2, createdAt := 2 }] "s").map Chunk.id ∧
      getActiveChunks newStore "s" = [res.summaryChunk] ∧
      res.compactedChunks.length = (getActiveChunks
        [{ id := "a", sessionId := "s",
           content := { messages := [], metadata := {} },
           status := ChunkStatus.active, depth := 0, createdAt := 1 },
         { id := "b", sessionId := "s",
           content := { messages := [], metadata := {} },
           status := ChunkStatus.active, depth := 2, createdAt := 2 }] "s").length ∧
      (∀ c ∈ res.compactedChunks, c.status = ChunkStatus.compacted) :=
  (compact_spec
    [{ id := "a", sessionId := "s",
       content := { messages := [], metadata := {} },
       status := ChunkStatus.active, depth := 0, createdAt := 1 },
     { id := "b", sessionId := "s",
       content := { messages := [], metadata := {} },
       status := ChunkStatus.active, depth := 2, createdAt := 2 }]
    "s" "SUM" "new" 9).2 (by decide)

-- ===========================================================================
-- C4 — finalize with no drafts is a no-op; repetition yields no second chunk
-- ===========================================================================

theorem lookup_clearSession (tr : Tracker) (sessionId : String) :
    (clearSession tr sessionId).lookup sessionId = none := by
  induction tr with
  | nil => rfl
  | cons e tr ih =>
    obtain ⟨k, v⟩ := e
    by_cases h : k = sessionId
    · subst h
      simpa [clearSession, List.filter_cons] using ih
    · have hk : (k == sessionId) = false := by simpa using h
      have hk2 : (sessionId == k) = false := by
        simpa using fun hx : sessionId = k => h hx.symm
      simpa [clearSession, List.filter_cons, hk, hk2, List.lookup] using ih

theorem sessionDrafts_after_finalize (st : MemoirState) (sessionId newId : String) (now : Nat) :
    sessionDrafts (finalize st sessionId newId now).tracker sessionId = [] := by
  unfold finalize
  by_cases h : (sessionDrafts st.tracker sessionId).isEmpty = true
  · rw [if_pos h]
    simpa [List.isEmpty_iff] using h
  · rw [if_neg h]
    simp only [sessionDrafts, lookup_clearSession, Option.getD_none]

/-- C4: for every session, calling `finalize` when the session has zero
draft messages creates no chunk and leaves all state unchanged, and
repeating `finalize` with nothing newly tracked never yields a second
chunk (the repeated call is the identity on the already-finalized
state). -/
theorem finalize_spec (st : MemoirState) (sessionId id1 id2 : String) (t1 t2 : Nat) :
    (hasMessages st.tracker sessionId = false → finalize st sessionId id1 t1 = st) ∧
    finalize (finalize st sessionId id1 t1) sessionId id2 t2 = finalize st sessionId id1 t1 := by
  have noop : ∀ (st' : MemoirState), sessionDrafts st'.tracker sessionId = [] →
      finalize st' sessionId id2 t2 = st' := by
    intro st' h
    unfold finalize
    rw [h]
    rfl
  constructor
  · intro h
    have hd : sessionDrafts st.tracker sessionId = [] := by
      simpa [hasMessages, List.isEmpty_iff] using h
    unfold finalize
    rw [hd]
    rfl
  · exact noop _ (sessionDrafts_after_finalize st sessionId id1 t1)

/-- Witness for C4: on the empty state, finalize is the identity and the
repeated call changes nothing. -/
theorem finalize_spec_witness :
    (hasMessages (MemoirState.mk [] []).tracker "s" = false →
      finalize (MemoirState.mk [] []) "s" "i" 0 = MemoirState.mk [] []) ∧
    finalize (finalize (MemoirState.mk [] []) "s" "i" 0) "s" "j" 1 =
      finalize (MemoirState.mk [] []) "s" "i" 0 :=
  finalize_spec (MemoirState.mk [] []) "s" "i" "j" 0 1

-- ===========================================================================
-- C2 — filtering policy of the streaming part handler
-- ===========================================================================

/-- C2: a streamed message part is accepted into the session's draft
message (the handler produces a part for `tracker.addPart`) exactly when it
is a text part with non-blank text, or a tool part whose execution state is
the terminal successful status `completed`; blank text parts, tool parts in
pending/running/error states (or with no state), and parts of any other
type are discarded. -/
theorem part_filter_spec (p : EventMessagePart) :
    (handleMessagePartUpdated p).isSome = true ↔
      ((p.type = "text" ∧ ∃ t, p.text = some t ∧ strTrim t ≠ "") ∨
       (p.type = "tool" ∧ ∃ st, p.state = some st ∧ st.status = ToolStatus.completed)) := by
  by_cases ht : p.type = "text"
  · have htool : p.type ≠ "tool" := by rw [ht]; decide
    cases hb : isBlankText p.text with
    | true =>
      have heq : handleMessagePartUpdated p = none := by
        unfold handleMessagePartUpdated
        rw [if_neg (by simp [ht, htool]), if_pos (by rw [ht, hb]; decide)]
      rw [heq]
      simp only [Option.isSome_none, Bool.false_eq_true, false_iff]
      rintro (⟨_, t, hsome, htr⟩ | ⟨habs, _⟩)
      · rw [hsome] at hb
        simp only [isBlankText, beq_iff_eq] at hb
        exact absurd hb htr
      · exact absurd habs htool
    | false =>
      constructor
      · intro _
        left
        refine ⟨ht, ?_⟩
        cases hx : p.text with
        | none => rw [hx] at hb; simp [isBlankText] at hb
        | some t =>
          refine ⟨t, rfl, ?_⟩
          rw [hx] at hb
          simpa [isBlankText] using hb
      · intro _
        unfold handleMessagePartUpdated
        rw [if_neg (by simp [ht, htool]), if_neg (by simp [hb]),
          if_neg (by simp [ht]), if_pos (by simp [ht])]
        rfl
  · by_cases htl : p.type = "tool"
    · cases hc : toolCompleted p.state with
      | true =>
        constructor
        · intro _
          right
          refine ⟨htl, ?_⟩
          cases hx : p.state with
          | none => rw [hx] at hc; simp [toolCompleted] at hc
          | some st =>
            refine ⟨st, rfl, ?_⟩
            rw [hx] at hc
            simpa [toolCompleted, beq_iff_eq] using hc
        · intro _
          unfold handleMessagePartUpdated
          rw [if_neg (by simp [ht, htl]), if_neg (by simp [ht]),
            if_neg (by simp [hc]), if_neg (by simp [ht]), if_pos (by simp [htl])]
          rfl
      | false =>
        constructor
        · intro h
          unfold handleMessagePartUpdated at h
          rw [if_neg (by simp [ht, htl]), if_neg (by simp [ht]),
            if_pos (by simp [htl, hc])] at h
          simp at h
        · rintro (⟨habs, _⟩ | ⟨_, st, hsome, hst⟩)
          · exact absurd habs ht
          · rw [hsome] at hc
            simp only [toolCompleted, beq_iff_eq] at hc
            exact absurd hst (by simpa using hc)
    · constructor
      · intro h
        unfold handleMessagePartUpdated at h
        rw [if_pos (by simp [ht, htl])] at h
        simp at h
      · rintro (⟨habs, _⟩ | ⟨habs, _⟩)
        · exact absurd habs ht
        · exact absurd habs htl

/-- Witness for C2: a non-blank text part is accepted. -/
theorem part_filter_spec_witness :
    (handleMessagePartUpdated
      { id := "p1", sessionID := "s", messageID := "m", type := "text",
        text := some "hello" }).isSome = true :=
  (part_filter_spec
    { id := "p1", sessionID := "s", messageID := "m", type := "text",
      text := some "hello" }).mpr (Or.inl ⟨rfl, "hello", rfl, by decide⟩)

-- ===========================================================================
-- C9 — only text and tool parts ever reach a draft
-- ===========================================================================

/-- C9: every draft-message part produced from the host event feed is a
`text` or a `tool` part — the `message.part.updated` handler never hands a
`reasoning` or `file` part (though both are valid `ChunkMessagePart`
variants) to the tracker. -/
theorem draft_parts_text_or_tool (p : EventMessagePart) (q : ChunkMessagePart)
    (h : handleMessagePartUpdated p = some q) :
    (∃ t, q = ChunkMessagePart.text t) ∨
    (∃ tl i o, q = ChunkMessagePart.tool tl i o) := by
  unfold handleMessagePartUpdated at h
  split at h
  · exact absurd h (by simp)
  · split at h
    · exact absurd h (by simp)
    · split at h
      · exact absurd h (by simp)
      · split at h
        · exact Or.inl ⟨p.text, (Option.some_inj.mp h).symm⟩
        · split at h
          · exact Or.inr ⟨p.tool, _, _, (Option.some_inj.mp h).symm⟩
          · exact absurd h (by simp)

/-- Witness for C9: the accepted part of a concrete text event is a text
part. -/
theorem draft_parts_text_or_tool_witness :
    (∃ t, ChunkMessagePart.text (some "hi") = ChunkMessagePart.text t) ∨
    (∃ tl i o, ChunkMessagePart.text (some "hi") = ChunkMessagePart.tool tl i o) :=
  draft_parts_text_or_tool
    { id := "p1", sessionID := "s", messageID := "m", type := "text", text := some "hi" }
    (ChunkMessagePart.text (some "hi")) (by decide)

-- ===========================================================================
-- C3 — summary text chosen at compaction and the generated fallback's form
-- ===========================================================================

theorem string_isEmpty_false_of_ne (s : String) (h : s ≠ "") : s.isEmpty = false := by
  cases hx : s.isEmpty
  · rfl
  · exact absurd ((String.isEmpty_iff s).mp hx) h

theorem toString_of_string (s : String) : toString s = s := rfl

/-- The embedded `generateCompactionSummary` produces exactly the string
form worded by the specification. -/
theorem generate_eq_spec (chunks : List Chunk) :
    generateCompactionSummary chunks = generatedSummarySpec chunks := by
  unfold generateCompactionSummary generatedSummarySpec
  cases htools : allToolsOf chunks with
  | nil =>
    cases hfiles : allFilesOf chunks with
    | nil =>
      simp [joinWith]
    | cons f fs =>
      by_cases h3 : fs.length + 1 ≤ 3
      · have htake : List.take 3 (f :: fs) = f :: fs :=
          List.take_of_length_le (by simpa using h3)
        have h3' : ¬(3 < fs.length + 1) := by omega
        simp [joinWith, h3, h3', htake]
        apply String.ext
        simp only [toString_of_string, String.data_append, List.append_assoc, List.append_nil]
        rfl
      · have h3' : 3 < fs.length + 1 := by omega
        simp [joinWith, h3, h3']
        apply String.ext
        simp only [toString_of_string, String.data_append, List.append_assoc, List.append_nil]
        rfl
  | cons t ts =>
    cases hfiles : allFilesOf chunks with
    | nil =>
      simp [joinWith]
      apply String.ext
      simp only [toString_of_string, String.data_append, List.append_assoc, List.append_nil]
      rfl
    | cons f fs =>
      by_cases h3 : fs.length + 1 ≤ 3
      · have htake : List.take 3 (f :: fs) = f :: fs :=
          List.take_of_length_le (by simpa using h3)
        have h3' : ¬(3 < fs.length + 1) := by omega
        simp [joinWith, h3, h3', htake]
        apply String.ext
        simp only [toString_of_string, String.data_append, List.append_assoc, List.append_nil]
        rfl
      · have h3' : 3 < fs.length + 1 := by omega
        simp [joinWith, h3, h3']
        apply String.ext
        simp only [toString_of_string, String.data_append, List.append_assoc, List.append_nil]
        rfl

/-- C3: the summary text of the chunk produced by a compaction is the
caller-supplied / host-extracted narrative summary when one is available
(present and non-empty), and otherwise the generated metadata summary of
the exact form `'<total messages> messages across <n> chunks; tools: ...;
files: ...'` — tools and files segments present only when non-empty, at
most 3 files enumerated, and a `'+K more'` suffix appended when more than 3
distinct files exist (as captured by `generatedSummarySpec`). -/
theorem compaction_summary_choice (chunks : List Chunk) (hostSummary : Option String) :
    (∀ s, hostSummary = some s → s ≠ "" →
      chooseCompactionSummary hostSummary chunks = s) ∧
    chooseCompactionSummary none chunks = generateCompactionSummary chunks ∧
    generateCompactionSummary chunks = generatedSummarySpec chunks := by
  refine ⟨?_, rfl, generate_eq_spec chunks⟩
  intro s hs hne
  rw [hs]
  unfold chooseCompactionSummary
  simp only [string_isEmpty_false_of_ne s hne, Bool.false_eq_true, if_false]

/-- Witness for C3: a concrete non-empty host summary is preferred. -/
theorem compaction_summary_choice_witness :
    chooseCompactionSummary (some "Completed authentication feature") [] =
      "Completed authentication feature" :=
  (compaction_summary_choice [] (some "Completed authentication feature")).1
    "Completed authentication feature" rfl (by decide)

-- ===========================================================================
-- C5 — unknown chunk id: empty expansion and structured not-found result
-- ===========================================================================

/-- C5: for every unknown chunk id, the store's `expand` returns an empty
list regardless of the `includeChildren` flag, and the expand tool surface
reports this as a structured not-found result (`success:false` with an
error message naming the chunk id) rather than throwing. -/
theorem expand_unknown_spec (iso : Nat → String) (store : ChunkStore) (chunkId : String)
    (includeChildren : Bool) (h : findChunk store chunkId = none) :
    expand store chunkId includeChildren = [] ∧
    expandExecute iso store chunkId includeChildren =
      ExpandResponse.failure s!"Chunk {chunkId} not found" := by
  have he : expand store chunkId includeChildren = [] := by
    unfold expand
    rw [h]
  refine ⟨he, ?_⟩
  unfold expandExecute
  rw [he]
  rfl

/-- Witness for C5 at the empty store and a concrete id. -/
theorem expand_unknown_spec_witness :
    expand [] "ch_missing" true = [] ∧
    expandExecute (fun _ => "") [] "ch_missing" true =
      ExpandResponse.failure "Chunk ch_missing not found" :=
  expand_unknown_spec (fun _ => "") [] "ch_missing" true rfl

-- ===========================================================================
-- C6 — expansion with and without direct children
-- ===========================================================================

/-- C6: for every existing chunk whose `childRefs` all resolve (it has `k`
direct children), `expand` with `includeChildren=true` returns exactly
`k+1` chunks — the chunk itself followed by its direct children in
`childRefs` order and nothing deeper — while `includeChildren=false`
returns exactly the one chunk. -/
theorem expand_children_spec (store : ChunkStore) (chunkId : String) (c : Chunk)
    (hc : findChunk store chunkId = some c)
    (hresolve : ∀ r ∈ c.childRefs, (findChunk store r).isSome = true) :
    expand store chunkId true = c :: c.childRefs.filterMap (findChunk store) ∧
    (expand store chunkId true).length = c.childRefs.length + 1 ∧
    expand store chunkId false = [c] := by
  have he : expand store chunkId true = c :: c.childRefs.filterMap (findChunk store) := by
    unfold expand
    rw [hc]
    rfl
  refine ⟨he, ?_, ?_⟩
  · rw [he]
    simp only [List.length_cons]
    rw [length_filterMap_of_isSome _ _ hresolve]
  · unfold expand
    rw [hc]
    rfl

/-- Witness for C6: a parent with two resolvable children expands to three
chunks with children in `childRefs` order, and to one chunk without the
flag. -/
theorem expand_children_spec_witness :
    expand
      [{ id := "p", sessionId := "s", content := { messages := [], metadata := {} },
         status := ChunkStatus.active, depth := 1, childRefs := ["c1", "c2"], createdAt := 3 },
       { id := "c1", sessionId := "s", content := { messages := [], metadata := {} },
         status := ChunkStatus.compacted, depth := 0, createdAt := 1 },
       { id := "c2", sessionId := "s", content := { messages := [], metadata := {} },
         status := ChunkStatus.compacted, depth := 0, createdAt := 2 }]
      "p" true =
      { id := "p", sessionId := "s", content := { messages := [], metadata := {} },
        status := ChunkStatus.active, depth := 1, childRefs := ["c1", "c2"], createdAt := 3 } ::
        (["c1", "c2"].filterMap (findChunk
          [{ id := "p", sessionId := "s", content := { messages := [], metadata := {} },
             status := ChunkStatus.active, depth := 1, childRefs := ["c1", "c2"], createdAt := 3 },
           { id := "c1", sessionId := "s", content := { messages := [], metadata := {} },
             status := ChunkStatus.compacted, depth := 0, createdAt := 1 },
           { id := "c2", sessionId := "s", content := { messages := [], metadata := {} },
             status := ChunkStatus.compacted, depth := 0, createdAt := 2 }])) ∧
    (expand
      [{ id := "p", sessionId := "s", content := { messages := [], metadata := {} },
         status := ChunkStatus.active, depth := 1, childRefs := ["c1", "c2"], createdAt := 3 },
       { id := "c1", sessionId := "s", content := { messages := [], metadata := {} },
         status := ChunkStatus.compacted, depth := 0, createdAt := 1 },
       { id := "c2", sessionId := "s", content := { messages := [], metadata := {} },
         status := ChunkStatus.compacted, depth := 0, createdAt := 2 }]
      "p" true).length = (["c1", "c2"] : List String).length + 1 ∧
    expand
      [{ id := "p", sessionId := "s", content := { messages := [], metadata := {} },
         status := ChunkStatus.active, depth := 1, childRefs := ["c1", "c2"], createdAt := 3 },
       { id := "c1", sessionId := "s", content := { messages := [], metadata := {} },
         status := ChunkStatus.compacted, depth := 0, createdAt := 1 },
       { id := "c2", sessionId := "s", content := { messages := [], metadata := {} },
         status := ChunkStatus.compacted, depth := 0, createdAt := 2 }]
      "p" false =
      [{ id := "p", sessionId := "s", content := { messages := [], metadata := {} },
         status := ChunkStatus.active, depth := 1, childRefs := ["c1", "c2"], createdAt := 3 }] :=
  expand_children_spec _ "p" _ (by decide) (by decide)

-- ===========================================================================
-- C7 — expand tool token estimate and oversize warning
-- ===========================================================================

/-- C7: for every full expansion performed by the expand tool, the token
estimate equals the ceiling of `character_count / 4` of the formatted
content (for naturals, `⌈n/4⌉ = (n+3)/4`), and a warning is attached to the
response exactly when that estimate exceeds the fixed 4000-token
threshold. -/
theorem expand_estimate_spec (iso : Nat → String) (store : ChunkStore) (chunkId : String)
    (includeChildren : Bool) (n est : Nat) (content : String) (warning : Option String)
    (h : expandExecute iso store chunkId includeChildren =
      ExpandResponse.ok n est content warning) :
    est = (content.length + 3) / 4 ∧ (warning.isSome = true ↔ 4000 < est) := by
  unfold expandExecute at h
  by_cases hz : ((expand store chunkId includeChildren).length == 0) = true
  · rw [if_pos hz] at h
    exact absurd h (by simp)
  · rw [if_neg hz] at h
    injection h with h1 h2 h3 h4
    constructor
    · rw [← h2, ← h3]
      rfl
    · rw [← h2, ← h4]
      by_cases hw : 4000 < estimateTokens
          (joinWith "\n\n---\n\n" ((expand store chunkId includeChildren).map
            (formatChunkContent iso)))
      · simp only [LARGE_RESPONSE_TOKEN_THRESHOLD] at *
        rw [if_pos hw]
        simpa using hw
      · simp only [LARGE_RESPONSE_TOKEN_THRESHOLD] at *
        rw [if_neg hw]
        simpa using hw

/-- Concrete fixture chunk for the C7 witness. -/
def estChunk : Chunk :=
  { id := "c1", sessionId := "s", content := { messages := [], metadata := {} },
    status := ChunkStatus.active, depth := 0, createdAt := 0 }

/-- Formatted content of the C7 witness expansion. -/
def estContent : String :=
  joinWith "\n\n---\n\n" ((expand [estChunk] "c1" false).map (formatChunkContent (fun _ => "")))

/-- Token estimate of the C7 witness expansion. -/
def estVal : Nat := estimateTokens estContent

/-- Warning of the C7 witness expansion. -/
def estWarning : Option String :=
  if estVal > LARGE_RESPONSE_TOKEN_THRESHOLD then some (largeResponseWarning estVal) else none

/-- Witness for C7 at a concrete single-chunk store. -/
theorem expand_estimate_spec_witness :
    estVal = (estContent.length + 3) / 4 ∧ (estWarning.isSome = true ↔ 4000 < estVal) :=
  expand_estimate_spec (fun _ => "") [estChunk] "c1" false
    (expand [estChunk] "c1" false).length estVal estContent estWarning rfl

-- ===========================================================================
-- C8 — history tool warning policy on large potential expansions
-- ===========================================================================

/-- A single search hit whose chunk summary is 401 characters long, so that
the estimated cost of expanding it alone is
`⌈(401 * 20) / 4⌉ = 2005 > 2000` tokens. -/
def longSummaryResult : SearchResult :=
  { chunk :=
      { id := "c1", sessionId := "s",
        content := { messages := [], metadata := {} },
        summary := some (String.mk (List.replicate 401 'a')),
        status := ChunkStatus.active, depth := 0, createdAt := 0 },
    rank := 0 }

/-- A search hit with no summary; its estimated expansion cost is the floor
value `⌈2000 / 4⌉ = 500` tokens. -/
def plainResult (i : String) : SearchResult :=
  { chunk :=
      { id := i, sessionId := "s",
        content := { messages := [], metadata := {} },
        status := ChunkStatus.active, depth := 0, createdAt := 0 },
    rank := 0 }

set_option maxRecDepth 8192 in
/-- Counterexample to C8 as stated: a non-empty result set whose estimated
aggregate expansion cost (2005 tokens) exceeds the 2000-token threshold,
yet the history tool attaches no warning, because the source also requires
`results.length > 3`. -/
theorem history_warning_counterexample :
    [longSummaryResult] ≠ ([] : List SearchResult) ∧
    LARGE_RESULT_TOKEN_THRESHOLD < estimatedExpandedTokensOf [longSummaryResult] ∧
    (buildSearchResponse [longSummaryResult] "current session").warning = none := by
  refine ⟨by decide, by decide, by decide⟩

/-- C8 (amended): for every non-empty history search result set, the
history tool attaches a warning to its response exactly when the estimated
aggregate cost of expanding all results exceeds the fixed 2000-token
threshold AND the result set has more than 3 entries. -/
theorem history_warning_policy (results : List SearchResult) (scope : String)
    (h : results ≠ []) :
    ((buildSearchResponse results scope).warning.isSome = true ↔
      (LARGE_RESULT_TOKEN_THRESHOLD < estimatedExpandedTokensOf results ∧
        3 < results.length)) := by
  unfold buildSearchResponse
  by_cases h1 : LARGE_RESULT_TOKEN_THRESHOLD < estimatedExpandedTokensOf results
  · by_cases h2 : 3 < results.length
    · simp [h1, h2, gt_iff_lt]
    · simp [h1, h2, gt_iff_lt]
  · simp [h1, gt_iff_lt]

set_option maxRecDepth 8192 in
/-- Witness for C8's amended policy: four results whose aggregate estimate
is 3505 tokens do get the warning. -/
theorem history_warning_policy_witness :
    (buildSearchResponse
      [longSummaryResult, plainResult "c2", plainResult "c3", plainResult "c4"]
      "current session").warning.isSome = true :=
  (history_warning_policy
    [longSummaryResult, plainResult "c2", plainResult "c3", plainResult "c4"]
    "current session" (by decide)).mpr (by decide)

-- ===========================================================================
-- C10 — only the first of several requested session ids is searched
-- ===========================================================================

theorem search_session_restricted (store : ChunkStore) (query s : String)
    (minDepth : Option Nat) (limit : Nat) :
    ∀ r ∈ search store query (some s) minDepth limit, r.chunk.sessionId = s := by
  intro r hr
  unfold search at hr
  have hmem := List.take_subset _ _ hr
  obtain ⟨c, hcf, rfl⟩ := List.mem_map.mp hmem
  have hfil := (List.mem_filter.mp hcf).2
  simp only [Bool.and_eq_true, sessionMatches, beq_iff_eq] at hfil
  exact hfil.1.1

/-- C10: for every invocation of the history tool with a `session_ids` list
containing two or more session ids, only the first id in the list is
actually searched — the session passed to the store search is the first id
and every returned result belongs to it — even though the reported search
scope string enumerates all the supplied session ids. -/
theorem history_first_session_only (store : ChunkStore) (args : HistoryArgs)
    (contextSessionID query first : String) (rest : List String)
    (h : args.session_ids = some (first :: rest)) (hrest : rest ≠ []) :
    (selectScope args contextSessionID).1 = some first ∧
    (selectScope args contextSessionID).2 =
      "sessions: " ++ joinWith ", " (first :: rest) ∧
    ∀ r ∈ (historyExecute store args contextSessionID query).results,
      r.chunk.sessionId = first := by
  have hsel : selectScope args contextSessionID =
      (some first, "sessions: " ++ joinWith ", " (first :: rest)) := by
    unfold selectScope
    rw [h]
    simp
  refine ⟨by rw [hsel], by rw [hsel], ?_⟩
  intro r hr
  unfold historyExecute at hr
  rw [hsel] at hr
  by_cases hz : ((search store query (some first) args.depth (args.limit.getD 10)).length
      == 0) = true
  · rw [if_pos hz] at hr
    simp at hr
  · rw [if_neg hz] at hr
    simp only [buildSearchResponse] at hr
    exact search_session_restricted store query first args.depth (args.limit.getD 10) r hr

/-- Witness for C10 at a concrete store holding chunks of both requested
sessions, with the query matching both. -/
theorem history_first_session_only_witness :
    (selectScope { query := some "hello", session_ids := some ["s1", "s2"] } "ctx").1 =
      some "s1" ∧
    (selectScope { query := some "hello", session_ids := some ["s1", "s2"] } "ctx").2 =
      "sessions: " ++ joinWith ", " ["s1", "s2"] ∧
    ∀ r ∈ (historyExecute
        [{ id := "a", sessionId := "s1", content := { messages := [], metadata := {} },
           summary := some "hello there", status := ChunkStatus.active, depth := 0,
           createdAt := 1 },
         { id := "b", sessionId := "s2", content := { messages := [], metadata := {} },
           summary := some "hello again", status := ChunkStatus.active, depth := 0,
           createdAt := 2 }]
        { query := some "hello", session_ids := some ["s1", "s2"] } "ctx" "hello").results,
      r.chunk.sessionId = "s1" :=
  history_first_session_only
    [{ id := "a", sessionId := "s1", content := { messages := [], metadata := {} },
       summary := some "hello there", status := ChunkStatus.active, depth := 0,
       createdAt := 1 },
     { id := "b", sessionId := "s2", content := { messages := [], metadata := {} },
       summary := some "hello again", status := ChunkStatus.active, depth := 0,
       createdAt := 2 }]
    { query := some "hello", session_ids := some ["s1", "s2"] } "ctx" "hello" "s1" ["s2"]
    rfl (by decide)

end Memoir
